import Mathlib

/-!
Verification of the Bazaar widget sources (`bz-screenshot.c`,
`bz-transaction-view.c`, `bz-spdx.c`) against their natural-language
specification.

Shallow embedding conventions:
* C `double` values are modelled as exact rationals (`ℚ`);
* C `int` / `guint` values are modelled as `ℤ` / `ℕ`;
* nullable pointers are modelled as `Option`;
* C strings are modelled as `List Char`;
* GObject property notification (`g_object_notify_by_pspec`) is modelled by
  having each setter return, besides the updated widget state, the list of
  properties it notified.
-/

/-- Models `GtkOrientation`. -/
inductive GtkOrientation
  | horizontal
  | vertical
deriving DecidableEq

/-- Models `GtkSizeRequestMode` (only the two values this code uses). -/
inductive GtkSizeRequestMode
  | constant_size
  | height_for_width
deriving DecidableEq

/-- Models `GskScalingFilter`. -/
inductive GskScalingFilter
  | linear
  | nearest
  | trilinear
deriving DecidableEq

/-- Models a `GdkPaintable`: the code only reads its intrinsic width, height
and intrinsic aspect ratio (`gdk_paintable_get_intrinsic_width` /
`_height` / `_aspect_ratio`). -/
structure GdkPaintable where
  intrinsic_width : ℤ
  intrinsic_height : ℤ
  intrinsic_aspect : ℚ
deriving DecidableEq

/-- Models `struct _BzScreenshot` from `bz-screenshot.c`. -/
structure BzScreenshot where
  paintable : Option GdkPaintable
  focus_x : ℚ
  focus_y : ℚ
  rounded_corners : Bool
  top_half : Bool
  filter : GskScalingFilter
deriving DecidableEq

/-- `#define TOP_HALF_FIXED_WIDTH 650` in `bz-screenshot.c`. -/
def TOP_HALF_FIXED_WIDTH : ℤ := 650

/-- `#define TOP_HALF_FIXED_HEIGHT 265` in `bz-screenshot.c`. -/
def TOP_HALF_FIXED_HEIGHT : ℤ := 265

/-- Models `bz_screenshot_init`: focus coordinates `-1.0`, rounded corners
`TRUE`, top-half `FALSE`, trilinear filter; `paintable` starts out `NULL`
(GObject zero-initialisation). -/
def bz_screenshot_init : BzScreenshot :=
  { paintable := none
    focus_x := -1
    focus_y := -1
    rounded_corners := true
    top_half := false
    filter := GskScalingFilter.trilinear }

/-- Models `bz_screenshot_get_request_mode`. -/
def bz_screenshot_get_request_mode (self : BzScreenshot) : GtkSizeRequestMode :=
  if self.top_half then GtkSizeRequestMode.constant_size
  else GtkSizeRequestMode.height_for_width

/-- Models `bz_screenshot_measure`.  The C function writes through the
`minimum` / `natural` out-parameters; here it takes their previous values and
returns the pair they hold afterwards, so the early `return` on a `NULL`
paintable leaves them unchanged.  In the height-for-width vertical branch the
C code computes `result = ceil((double) for_size / intrinsic_aspect_ratio)`
and stores `(int) MIN (intrinsic_height, result)`; both operands of `MIN` are
integral, so the truncating cast is exact and the whole computation is the
integer minimum below. -/
def bz_screenshot_measure (self : BzScreenshot) (orientation : GtkOrientation)
    (for_size minimum natural : ℤ) : ℤ × ℤ :=
  match self.paintable with
  | none => (minimum, natural)
  | some p =>
      if self.top_half then
        match orientation with
        | GtkOrientation.horizontal => (TOP_HALF_FIXED_WIDTH, TOP_HALF_FIXED_WIDTH)
        | GtkOrientation.vertical => (TOP_HALF_FIXED_HEIGHT, TOP_HALF_FIXED_HEIGHT)
      else
        match orientation with
        | GtkOrientation.vertical =>
            if 0 ≤ for_size ∧ 0 < p.intrinsic_aspect then
              let result : ℤ := ⌈(for_size : ℚ) / p.intrinsic_aspect⌉
              (min p.intrinsic_height result, min p.intrinsic_height result)
            else
              (0, p.intrinsic_height)
        | GtkOrientation.horizontal => (0, p.intrinsic_width)

/-- The `(scaled_w, scaled_h)` computation of the `top_half` branch of
`bz_screenshot_snapshot` (lines 244-254 of `bz-screenshot.c`). -/
def top_half_scaled (widget_height : ℤ) (paintable_aspect : ℚ) : ℚ × ℚ :=
  let scaled_w : ℚ := (TOP_HALF_FIXED_WIDTH : ℚ)
  if 0 < paintable_aspect then
    (scaled_w, scaled_w / paintable_aspect)
  else
    (scaled_w, (widget_height : ℚ) * 2)

/-- The `(scaled_w, scaled_h)` computation of the non-top-half branch of
`bz_screenshot_snapshot` (lines 256-273 of `bz-screenshot.c`): start from
`scaled_w = widget_width`, `scaled_h = scaled_w / aspect`, and if `scaled_h`
overflows the widget height, clamp to `scaled_h = widget_height`,
`scaled_w = scaled_h * aspect`. -/
def fit_scaled (widget_width widget_height : ℤ) (paintable_aspect : ℚ) : ℚ × ℚ :=
  if 0 < paintable_aspect then
    let scaled_w : ℚ := (widget_width : ℚ)
    let scaled_h : ℚ := scaled_w / paintable_aspect
    if (widget_height : ℚ) < scaled_h then
      ((widget_height : ℚ) * paintable_aspect, (widget_height : ℚ))
    else
      (scaled_w, scaled_h)
  else
    ((widget_width : ℚ), (widget_height : ℚ))

/-- The rectangle (`x`, `y`, `scaled_w`, `scaled_h`) that
`bz_screenshot_snapshot` draws the paintable into. -/
structure SnapshotRect where
  x : ℚ
  y : ℚ
  scaled_w : ℚ
  scaled_h : ℚ
deriving DecidableEq

/-- Models the geometry computed by `bz_screenshot_snapshot`: `none` models
the early `return` on a `NULL` paintable, otherwise the draw rectangle.
`widget_width` / `widget_height` are `gtk_widget_get_width` / `_get_height`. -/
def bz_screenshot_snapshot_rect (self : BzScreenshot)
    (widget_width widget_height : ℤ) : Option SnapshotRect :=
  match self.paintable with
  | none => none
  | some p =>
      let paintable_aspect := p.intrinsic_aspect
      if self.top_half then
        let wh := top_half_scaled widget_height paintable_aspect
        some { x := ((widget_width : ℚ) - wh.1) / 2
               y := 0
               scaled_w := wh.1
               scaled_h := wh.2 }
      else
        let wh := fit_scaled widget_width widget_height paintable_aspect
        some { x := ((widget_width : ℚ) - wh.1) / 2
               y := ((widget_height : ℚ) - wh.2) / 2
               scaled_w := wh.1
               scaled_h := wh.2 }

lemma fit_scaled_spec (widget_width widget_height : ℤ) (a : ℚ) (ha : 0 < a) :
    (fit_scaled widget_width widget_height a).1
        = (fit_scaled widget_width widget_height a).2 * a
  ∧ (fit_scaled widget_width widget_height a).1 ≤ (widget_width : ℚ)
  ∧ (fit_scaled widget_width widget_height a).2 ≤ (widget_height : ℚ)
  ∧ ((fit_scaled widget_width widget_height a).1 = (widget_width : ℚ)
      ∨ (fit_scaled widget_width widget_height a).2 = (widget_height : ℚ)) := by
  unfold fit_scaled
  rw [if_pos ha]
  dsimp only
  by_cases hcl : (widget_height : ℚ) < (widget_width : ℚ) / a
  · rw [if_pos hcl]
    exact ⟨rfl, le_of_lt ((lt_div_iff₀ ha).mp hcl), le_refl _, Or.inr rfl⟩
  · rw [if_neg hcl]
    exact ⟨(div_mul_cancel₀ _ (ne_of_gt ha)).symm, le_refl _, not_lt.mp hcl, Or.inl rfl⟩

/-- Claim C1: in the non-top-half branch of `bz_screenshot_snapshot`, for
widget width `W ≥ 0`, height `H ≥ 0` and intrinsic aspect ratio `a > 0`, the
scaled rectangle preserves the aspect ratio (`scaled_w = scaled_h * a`), fits
within the widget bounds, fills at least one dimension exactly, and is
centered at `x = (W - scaled_w)/2`, `y = (H - scaled_h)/2`. -/
theorem bz_screenshot_snapshot_fit_within_bounds
    (self : BzScreenshot) (p : GdkPaintable) (W H : ℤ)
    (hp : self.paintable = some p) (ht : self.top_half = false)
    (hW : 0 ≤ W) (hH : 0 ≤ H) (ha : 0 < p.intrinsic_aspect) :
    ∃ r : SnapshotRect,
      bz_screenshot_snapshot_rect self W H = some r
      ∧ r.scaled_w = r.scaled_h * p.intrinsic_aspect
      ∧ r.scaled_w ≤ (W : ℚ)
      ∧ r.scaled_h ≤ (H : ℚ)
      ∧ (r.scaled_w = (W : ℚ) ∨ r.scaled_h = (H : ℚ))
      ∧ r.x = ((W : ℚ) - r.scaled_w) / 2
      ∧ r.y = ((H : ℚ) - r.scaled_h) / 2 := by
  obtain ⟨hratio, hw, hh, hfill⟩ := fit_scaled_spec W H p.intrinsic_aspect ha
  refine ⟨{ x := ((W : ℚ) - (fit_scaled W H p.intrinsic_aspect).1) / 2
            y := ((H : ℚ) - (fit_scaled W H p.intrinsic_aspect).2) / 2
            scaled_w := (fit_scaled W H p.intrinsic_aspect).1
            scaled_h := (fit_scaled W H p.intrinsic_aspect).2 }, ?_, hratio, hw, hh, hfill, rfl, rfl⟩
  unfold bz_screenshot_snapshot_rect
  rw [hp]
  simp only [ht, Bool.false_eq_true, if_neg, not_false_iff]

/-- A concrete `BzScreenshot` used to witness claims about the fit mode:
paintable of intrinsic size 4×3 with aspect ratio 2, `top_half = FALSE`. -/
def example_fit_screenshot : BzScreenshot :=
  { bz_screenshot_init with
    paintable := some { intrinsic_width := 4, intrinsic_height := 3, intrinsic_aspect := 2 } }

/-- Witness for claim C1 at widget size 4×3 and aspect ratio 2. -/
theorem bz_screenshot_snapshot_fit_within_bounds_witness :
    ∃ r : SnapshotRect,
      bz_screenshot_snapshot_rect example_fit_screenshot 4 3 = some r
      ∧ r.scaled_w = r.scaled_h * 2
      ∧ r.scaled_w ≤ (4 : ℚ)
      ∧ r.scaled_h ≤ (3 : ℚ)
      ∧ (r.scaled_w = (4 : ℚ) ∨ r.scaled_h = (3 : ℚ))
      ∧ r.x = ((4 : ℚ) - r.scaled_w) / 2
      ∧ r.y = ((3 : ℚ) - r.scaled_h) / 2 :=
  bz_screenshot_snapshot_fit_within_bounds example_fit_screenshot
    { intrinsic_width := 4, intrinsic_height := 3, intrinsic_aspect := 2 } 4 3
    rfl rfl (by decide) (by decide) (by decide)

lemma top_half_scaled_fst (widget_height : ℤ) (a : ℚ) :
    (top_half_scaled widget_height a).1 = (TOP_HALF_FIXED_WIDTH : ℚ) := by
  unfold top_half_scaled
  dsimp only
  split
  · rfl
  · rfl

/-- A concrete `BzScreenshot` used to witness claims about the top-half mode:
paintable of intrinsic size 4×3 with aspect ratio 2, `top_half = TRUE`. -/
def example_top_half_screenshot : BzScreenshot :=
  { bz_screenshot_init with
    paintable := some { intrinsic_width := 4, intrinsic_height := 3, intrinsic_aspect := 2 }
    top_half := true }

/-- Claim C3: with a non-null paintable and `top_half = TRUE`,
`bz_screenshot_get_request_mode` returns `GTK_SIZE_REQUEST_CONSTANT_SIZE`,
`bz_screenshot_measure` reports minimum = natural = 650 horizontally and
minimum = natural = 265 vertically for every `for_size`, and in the top-half
branch of `bz_screenshot_snapshot` the scaled width is exactly 650 and the
draw position has `y = 0`. -/
theorem bz_screenshot_top_half_fixed_size
    (self : BzScreenshot) (p : GdkPaintable)
    (hp : self.paintable = some p) (ht : self.top_half = true)
    (W H for_size minimum natural : ℤ) :
    bz_screenshot_get_request_mode self = GtkSizeRequestMode.constant_size
  ∧ bz_screenshot_measure self GtkOrientation.horizontal for_size minimum natural = (650, 650)
  ∧ bz_screenshot_measure self GtkOrientation.vertical for_size minimum natural = (265, 265)
  ∧ ∃ r : SnapshotRect,
      bz_screenshot_snapshot_rect self W H = some r
      ∧ r.scaled_w = 650 ∧ r.y = 0 := by
  refine ⟨?_, ?_, ?_, ?_⟩
  · unfold bz_screenshot_get_request_mode
    rw [ht]
    rfl
  · unfold bz_screenshot_measure
    rw [hp]
    dsimp only
    rw [ht]
    rfl
  · unfold bz_screenshot_measure
    rw [hp]
    dsimp only
    rw [ht]
    rfl
  · refine ⟨{ x := ((W : ℚ) - (top_half_scaled H p.intrinsic_aspect).1) / 2
              y := 0
              scaled_w := (top_half_scaled H p.intrinsic_aspect).1
              scaled_h := (top_half_scaled H p.intrinsic_aspect).2 }, ?_, ?_, rfl⟩
    · unfold bz_screenshot_snapshot_rect
      rw [hp]
      dsimp only
      rw [ht]
      rfl
    · rw [top_half_scaled_fst]
      norm_num [TOP_HALF_FIXED_WIDTH]

/-- Witness for claim C3 at a concrete top-half screenshot. -/
theorem bz_screenshot_top_half_fixed_size_witness :
    bz_screenshot_get_request_mode example_top_half_screenshot = GtkSizeRequestMode.constant_size
  ∧ bz_screenshot_measure example_top_half_screenshot GtkOrientation.horizontal 10 0 0 = (650, 650)
  ∧ bz_screenshot_measure example_top_half_screenshot GtkOrientation.vertical 10 0 0 = (265, 265)
  ∧ ∃ r : SnapshotRect,
      bz_screenshot_snapshot_rect example_top_half_screenshot 700 265 = some r
      ∧ r.scaled_w = 650 ∧ r.y = 0 :=
  bz_screenshot_top_half_fixed_size example_top_half_screenshot
    { intrinsic_width := 4, intrinsic_height := 3, intrinsic_aspect := 2 }
    rfl rfl 700 265 10 0 0

/-- Claim C5: height-for-width measurement.  With a non-null paintable and
`top_half = FALSE`: vertically, when `for_size ≥ 0` and the intrinsic aspect
ratio is positive, both minimum and natural are
`min(intrinsic_height, ceil(for_size / aspect))`, and otherwise minimum = 0
and natural = intrinsic_height; horizontally minimum = 0 and natural =
intrinsic_width; with a null paintable the out-parameters are unchanged. -/
theorem bz_screenshot_measure_height_for_width
    (self : BzScreenshot) (p : GdkPaintable)
    (hp : self.paintable = some p) (ht : self.top_half = false)
    (for_size minimum natural : ℤ)
    (s0 : BzScreenshot) (h0 : s0.paintable = none) (o : GtkOrientation) :
    (0 ≤ for_size → 0 < p.intrinsic_aspect →
        bz_screenshot_measure self GtkOrientation.vertical for_size minimum natural
          = (min p.intrinsic_height ⌈(for_size : ℚ) / p.intrinsic_aspect⌉,
             min p.intrinsic_height ⌈(for_size : ℚ) / p.intrinsic_aspect⌉))
  ∧ (for_size < 0 ∨ p.intrinsic_aspect ≤ 0 →
        bz_screenshot_measure self GtkOrientation.vertical for_size minimum natural
          = (0, p.intrinsic_height))
  ∧ bz_screenshot_measure self GtkOrientation.horizontal for_size minimum natural
      = (0, p.intrinsic_width)
  ∧ bz_screenshot_measure s0 o for_size minimum natural = (minimum, natural) := by
  refine ⟨?_, ?_, ?_, ?_⟩
  · intro h1 h2
    simp [bz_screenshot_measure, hp, ht, h1, h2]
  · intro h
    have hn : ¬(0 ≤ for_size ∧ 0 < p.intrinsic_aspect) := by
      rintro ⟨h1, h2⟩
      rcases h with h | h
      · exact absurd h1 (not_le.mpr h)
      · exact absurd h2 (not_lt.mpr h)
    simp [bz_screenshot_measure, hp, ht, hn]
  · simp [bz_screenshot_measure, hp, ht]
  · simp [bz_screenshot_measure, h0]

/-- Witness for claim C5: intrinsic size 4×3, aspect ratio 2, `for_size = 8`,
so `ceil(8 / 2) = 4` and the vertical result is `min 3 4 = 3`. -/
theorem bz_screenshot_measure_height_for_width_witness :
    ((0 : ℤ) ≤ 8 ∧ (0 : ℚ) < 2)
  ∧ bz_screenshot_measure example_fit_screenshot GtkOrientation.vertical 8 7 9 = (3, 3)
  ∧ bz_screenshot_measure example_fit_screenshot GtkOrientation.horizontal 8 7 9 = (0, 4)
  ∧ bz_screenshot_measure bz_screenshot_init GtkOrientation.vertical 8 7 9 = (7, 9) := by
  have h := bz_screenshot_measure_height_for_width example_fit_screenshot
    { intrinsic_width := 4, intrinsic_height := 3, intrinsic_aspect := 2 }
    rfl rfl 8 7 9 bz_screenshot_init rfl GtkOrientation.vertical
  refine ⟨⟨by norm_num, by norm_num⟩, ?_, h.2.2.1, h.2.2.2⟩
  rw [h.1 (by norm_num) (by norm_num)]
  norm_num

/-- Division that fails (returns `none`) on a zero divisor, used to show the
scaling code never divides by zero. -/
def checkedDiv (a b : ℚ) : Option ℚ :=
  if b = 0 then none else some (a / b)

/-- `top_half_scaled` with its division by the aspect ratio checked. -/
def top_half_scaled_checked (widget_height : ℤ) (paintable_aspect : ℚ) :
    Option (ℚ × ℚ) :=
  let scaled_w : ℚ := (TOP_HALF_FIXED_WIDTH : ℚ)
  if 0 < paintable_aspect then
    (checkedDiv scaled_w paintable_aspect).map (fun scaled_h => (scaled_w, scaled_h))
  else
    some (scaled_w, (widget_height : ℚ) * 2)

/-- `fit_scaled` with its division by the aspect ratio checked. -/
def fit_scaled_checked (widget_width widget_height : ℤ) (paintable_aspect : ℚ) :
    Option (ℚ × ℚ) :=
  if 0 < paintable_aspect then
    (checkedDiv (widget_width : ℚ) paintable_aspect).map (fun scaled_h =>
      if (widget_height : ℚ) < scaled_h then
        ((widget_height : ℚ) * paintable_aspect, (widget_height : ℚ))
      else
        ((widget_width : ℚ), scaled_h))
  else
    some ((widget_width : ℚ), (widget_height : ℚ))

/-- `bz_screenshot_measure` with its division by the aspect ratio checked. -/
def bz_screenshot_measure_checked (self : BzScreenshot) (orientation : GtkOrientation)
    (for_size minimum natural : ℤ) : Option (ℤ × ℤ) :=
  match self.paintable with
  | none => some (minimum, natural)
  | some p =>
      if self.top_half then
        match orientation with
        | GtkOrientation.horizontal => some (TOP_HALF_FIXED_WIDTH, TOP_HALF_FIXED_WIDTH)
        | GtkOrientation.vertical => some (TOP_HALF_FIXED_HEIGHT, TOP_HALF_FIXED_HEIGHT)
      else
        match orientation with
        | GtkOrientation.vertical =>
            if 0 ≤ for_size ∧ 0 < p.intrinsic_aspect then
              (checkedDiv (for_size : ℚ) p.intrinsic_aspect).map (fun q =>
                (min p.intrinsic_height ⌈q⌉, min p.intrinsic_height ⌈q⌉))
            else
              some (0, p.intrinsic_height)
        | GtkOrientation.horizontal => some (0, p.intrinsic_width)

lemma checkedDiv_of_pos (a b : ℚ) (hb : 0 < b) : checkedDiv a b = some (a / b) := by
  unfold checkedDiv
  rw [if_neg (ne_of_gt hb)]

/-- Claim C7: every division by the paintable aspect ratio in
`bz_screenshot_snapshot` and `bz_screenshot_measure` sits under a strict
positivity guard, so the checked variants (which fail on a zero divisor)
always succeed and agree with the real functions; and when the guard fails
the fixed fallbacks are used: in top-half mode `scaled_h = 2 * widget_height`,
in fit mode `scaled_w = widget_width` and `scaled_h = widget_height`. -/
theorem bz_screenshot_division_guarded (W H : ℤ) (a : ℚ) (ha : a ≤ 0) :
    (∀ (H2 : ℤ) (b : ℚ), top_half_scaled_checked H2 b = some (top_half_scaled H2 b))
  ∧ (∀ (W2 H2 : ℤ) (b : ℚ), fit_scaled_checked W2 H2 b = some (fit_scaled W2 H2 b))
  ∧ (∀ (s : BzScreenshot) (o : GtkOrientation) (fs m n : ℤ),
        bz_screenshot_measure_checked s o fs m n = some (bz_screenshot_measure s o fs m n))
  ∧ top_half_scaled H a = ((TOP_HALF_FIXED_WIDTH : ℚ), (H : ℚ) * 2)
  ∧ fit_scaled W H a = ((W : ℚ), (H : ℚ)) := by
  refine ⟨?_, ?_, ?_, ?_, ?_⟩
  · intro H2 b
    unfold top_half_scaled_checked top_half_scaled
    by_cases hb : 0 < b
    · rw [if_pos hb, if_pos hb, checkedDiv_of_pos _ _ hb]
      rfl
    · rw [if_neg hb, if_neg hb]
  · intro W2 H2 b
    unfold fit_scaled_checked fit_scaled
    by_cases hb : 0 < b
    · rw [if_pos hb, if_pos hb, checkedDiv_of_pos _ _ hb]
      rfl
    · rw [if_neg hb, if_neg hb]
  · intro s o fs m n
    unfold bz_screenshot_measure_checked bz_screenshot_measure
    cases hps : s.paintable with
    | none => rfl
    | some p =>
        by_cases htp : s.top_half
        · simp [htp]
          cases o <;> rfl
        · simp only [Bool.not_eq_true] at htp
          cases o with
          | horizontal => simp [htp]
          | vertical =>
              by_cases hg : 0 ≤ fs ∧ 0 < p.intrinsic_aspect
              · simp [htp, hg, checkedDiv_of_pos _ _ hg.2]
              · simp [htp, hg]
  · unfold top_half_scaled
    rw [if_neg (not_lt.mpr ha)]
  · unfold fit_scaled
    rw [if_neg (not_lt.mpr ha)]

/-- Witness for claim C7 at aspect ratio 0 and widget size 4×3. -/
theorem bz_screenshot_division_guarded_witness :
    ((0 : ℚ) ≤ 0)
  ∧ top_half_scaled_checked 3 (0 : ℚ) = some (top_half_scaled 3 0)
  ∧ bz_screenshot_measure_checked bz_screenshot_init GtkOrientation.vertical 8 7 9
      = some (bz_screenshot_measure bz_screenshot_init GtkOrientation.vertical 8 7 9)
  ∧ top_half_scaled 3 (0 : ℚ) = ((TOP_HALF_FIXED_WIDTH : ℚ), (3 : ℚ) * 2)
  ∧ fit_scaled 4 3 (0 : ℚ) = ((4 : ℚ), (3 : ℚ)) := by
  have h := bz_screenshot_division_guarded 4 3 0 (le_refl 0)
  exact ⟨le_refl 0, h.1 3 0, h.2.2.1 bz_screenshot_init GtkOrientation.vertical 8 7 9,
    h.2.2.2.1, h.2.2.2.2⟩

/-- The properties of `BzScreenshot`, as installed by
`bz_screenshot_class_init`. -/
inductive BzScreenshotProp
  | paintable
  | focus_x
  | focus_y
  | rounded_corners
  | top_half
  | filter
deriving DecidableEq

/-- Models `bz_screenshot_set_paintable`: stores the paintable (signal
(dis)connections and queue_resize/queue_draw are toolkit effects outside the
model) and always notifies `PROP_PAINTABLE`. -/
def bz_screenshot_set_paintable (self : BzScreenshot) (paintable : Option GdkPaintable) :
    BzScreenshot × List BzScreenshotProp :=
  ({ self with paintable := paintable }, [BzScreenshotProp.paintable])

/-- Models `bz_screenshot_get_paintable`. -/
def bz_screenshot_get_paintable (self : BzScreenshot) : Option GdkPaintable :=
  self.paintable

/-- Models `bz_screenshot_set_focus_x`: unconditionally stores the value and
notifies `PROP_FOCUS_X`. -/
def bz_screenshot_set_focus_x (self : BzScreenshot) (focus_x : ℚ) :
    BzScreenshot × List BzScreenshotProp :=
  ({ self with focus_x := focus_x }, [BzScreenshotProp.focus_x])

/-- Models `bz_screenshot_get_focus_x`. -/
def bz_screenshot_get_focus_x (self : BzScreenshot) : ℚ :=
  self.focus_x

/-- Models `bz_screenshot_set_focus_y`: unconditionally stores the value and
notifies `PROP_FOCUS_Y`. -/
def bz_screenshot_set_focus_y (self : BzScreenshot) (focus_y : ℚ) :
    BzScreenshot × List BzScreenshotProp :=
  ({ self with focus_y := focus_y }, [BzScreenshotProp.focus_y])

/-- Models `bz_screenshot_get_focus_y`. -/
def bz_screenshot_get_focus_y (self : BzScreenshot) : ℚ :=
  self.focus_y

/-- Models `bz_screenshot_set_rounded_corners`: returns early (no state
change, no notification) when the new value equals the current one. -/
def bz_screenshot_set_rounded_corners (self : BzScreenshot) (rounded_corners : Bool) :
    BzScreenshot × List BzScreenshotProp :=
  if self.rounded_corners = rounded_corners then
    (self, [])
  else
    ({ self with rounded_corners := rounded_corners }, [BzScreenshotProp.rounded_corners])

/-- Models `bz_screenshot_get_rounded_corners`. -/
def bz_screenshot_get_rounded_corners (self : BzScreenshot) : Bool :=
  self.rounded_corners

/-- Models `bz_screenshot_set_top_half`: returns early when the new value
equals the current one. -/
def bz_screenshot_set_top_half (self : BzScreenshot) (top_half : Bool) :
    BzScreenshot × List BzScreenshotProp :=
  if self.top_half = top_half then
    (self, [])
  else
    ({ self with top_half := top_half }, [BzScreenshotProp.top_half])

/-- Models `bz_screenshot_get_top_half`. -/
def bz_screenshot_get_top_half (self : BzScreenshot) : Bool :=
  self.top_half

/-- Models `bz_screenshot_set_filter`: returns early when the new value
equals the current one. -/
def bz_screenshot_set_filter (self : BzScreenshot) (filter : GskScalingFilter) :
    BzScreenshot × List BzScreenshotProp :=
  if self.filter = filter then
    (self, [])
  else
    ({ self with filter := filter }, [BzScreenshotProp.filter])

/-- Models `bz_screenshot_get_filter`. -/
def bz_screenshot_get_filter (self : BzScreenshot) : GskScalingFilter :=
  self.filter

/-- Models a `BzTransaction` handle (only its identity matters here). -/
structure BzTransaction where
  id : ℕ
deriving DecidableEq

/-- Models `struct _BzTransactionView`. -/
structure BzTransactionView where
  transaction : Option BzTransaction
deriving DecidableEq

/-- The single property of `BzTransactionView`. -/
inductive BzTransactionViewProp
  | transaction
deriving DecidableEq

/-- Models `bz_transaction_view_set_transaction`: clears the old handle,
stores the new one, and always notifies `PROP_TRANSACTION`. -/
def bz_transaction_view_set_transaction (self : BzTransactionView)
    (transaction : Option BzTransaction) :
    BzTransactionView × List BzTransactionViewProp :=
  ({ self with transaction := transaction }, [BzTransactionViewProp.transaction])

/-- Models `bz_transaction_view_get_transaction`. -/
def bz_transaction_view_get_transaction (self : BzTransactionView) : Option BzTransaction :=
  self.transaction

/-- Counterexample to claim C6: on the freshly initialised widget
(`rounded_corners = TRUE`), calling `bz_screenshot_set_rounded_corners` with
`TRUE` again hits the equality guard and emits no `rounded-corners`
notification, so not every setter call emits a change notification. -/
theorem bz_screenshot_setter_notify_counterexample :
    ¬ (BzScreenshotProp.rounded_corners
        ∈ (bz_screenshot_set_rounded_corners bz_screenshot_init true).2) := by
  decide

/-- Claim C6 (amended): for every property of `BzScreenshot` and for the
transaction property of `BzTransactionView`, calling the setter with `v` and
then the getter returns `v`; the paintable, focus-x, focus-y and transaction
setters emit a change notification on every call, while the rounded-corners,
top-half and filter setters emit one exactly when the new value differs from
the current one. -/
theorem bz_screenshot_setter_getter_round_trip
    (self : BzScreenshot) (tv : BzTransactionView)
    (p : Option GdkPaintable) (x y : ℚ) (rc th : Bool) (f : GskScalingFilter)
    (t : Option BzTransaction) :
    bz_screenshot_get_paintable (bz_screenshot_set_paintable self p).1 = p
  ∧ (bz_screenshot_set_paintable self p).2 = [BzScreenshotProp.paintable]
  ∧ bz_screenshot_get_focus_x (bz_screenshot_set_focus_x self x).1 = x
  ∧ (bz_screenshot_set_focus_x self x).2 = [BzScreenshotProp.focus_x]
  ∧ bz_screenshot_get_focus_y (bz_screenshot_set_focus_y self y).1 = y
  ∧ (bz_screenshot_set_focus_y self y).2 = [BzScreenshotProp.focus_y]
  ∧ bz_screenshot_get_rounded_corners (bz_screenshot_set_rounded_corners self rc).1 = rc
  ∧ ((bz_screenshot_set_rounded_corners self rc).2 = [BzScreenshotProp.rounded_corners]
      ↔ self.rounded_corners ≠ rc)
  ∧ bz_screenshot_get_top_half (bz_screenshot_set_top_half self th).1 = th
  ∧ ((bz_screenshot_set_top_half self th).2 = [BzScreenshotProp.top_half]
      ↔ self.top_half ≠ th)
  ∧ bz_screenshot_get_filter (bz_screenshot_set_filter self f).1 = f
  ∧ ((bz_screenshot_set_filter self f).2 = [BzScreenshotProp.filter]
      ↔ self.filter ≠ f)
  ∧ bz_transaction_view_get_transaction (bz_transaction_view_set_transaction tv t).1 = t
  ∧ (bz_transaction_view_set_transaction tv t).2 = [BzTransactionViewProp.transaction] := by
  refine ⟨rfl, rfl, rfl, rfl, rfl, rfl, ?_, ?_, ?_, ?_, ?_, ?_, rfl, rfl⟩
  · unfold bz_screenshot_set_rounded_corners bz_screenshot_get_rounded_corners
    by_cases h : self.rounded_corners = rc
    · rw [if_pos h]
      exact h
    · rw [if_neg h]
  · unfold bz_screenshot_set_rounded_corners
    by_cases h : self.rounded_corners = rc
    · rw [if_pos h]
      simp [h]
    · rw [if_neg h]
      simp [h]
  · unfold bz_screenshot_set_top_half bz_screenshot_get_top_half
    by_cases h : self.top_half = th
    · rw [if_pos h]
      exact h
    · rw [if_neg h]
  · unfold bz_screenshot_set_top_half
    by_cases h : self.top_half = th
    · rw [if_pos h]
      simp [h]
    · rw [if_neg h]
      simp [h]
  · unfold bz_screenshot_set_filter bz_screenshot_get_filter
    by_cases h : self.filter = f
    · rw [if_pos h]
      exact h
    · rw [if_neg h]
  · unfold bz_screenshot_set_filter
    by_cases h : self.filter = f
    · rw [if_pos h]
      simp [h]
    · rw [if_neg h]
      simp [h]

/-- Claim C10: the rounded-corners, top-half and filter setters leave the
entire widget state unchanged and emit no notification when called with the
current value, while the focus-x and focus-y setters store and notify on
every call. -/
theorem bz_screenshot_equality_guarded_setters (self : BzScreenshot) (x y : ℚ) :
    bz_screenshot_set_rounded_corners self self.rounded_corners = (self, [])
  ∧ bz_screenshot_set_top_half self self.top_half = (self, [])
  ∧ bz_screenshot_set_filter self self.filter = (self, [])
  ∧ bz_screenshot_set_focus_x self x
      = ({ self with focus_x := x }, [BzScreenshotProp.focus_x])
  ∧ bz_screenshot_set_focus_y self y
      = ({ self with focus_y := y }, [BzScreenshotProp.focus_y]) := by
  refine ⟨?_, ?_, ?_, rfl, rfl⟩
  · unfold bz_screenshot_set_rounded_corners
    rw [if_pos rfl]
  · unfold bz_screenshot_set_top_half
    rw [if_pos rfl]
  · unfold bz_screenshot_set_filter
    rw [if_pos rfl]

/-- An opaque drawable icon handle (a `GdkPaintable` used as an icon). -/
structure Icon where
  id : ℕ
deriving DecidableEq

/-- Models a `BzEntry` as seen by `bz-transaction-view.c`: its identifier
(`bz_entry_get_id`), its icon paintable (`bz_entry_get_icon_paintable`),
whether it is a flatpak entry (`BZ_IS_FLATPAK_ENTRY`), and the kind test
`bz_entry_is_of_kinds`, abstracted as a predicate since that function lives
outside these sources. -/
structure BzEntry where
  id : Option (List Char)
  icon_paintable : Option Icon
  is_flatpak : Bool
  is_of_kinds : Int → Bool

/-- Models a `BzBackendTransactionOpPayload`: only its name
(`bz_backend_transaction_op_payload_get_name`) is read here. -/
structure BzBackendTransactionOpPayload where
  name : Option (List Char)

/-- Models a `BzTransactionTask`: its recorded error
(`bz_transaction_task_get_error`) and its operation payload
(`bz_transaction_task_get_op`). -/
structure BzTransactionTask where
  error : Option (List Char)
  op : Option BzBackendTransactionOpPayload

/-- Models a `BzTransactionEntryTracker`: its entry
(`bz_transaction_entry_tracker_get_entry`) and its type enum
(`bz_transaction_entry_tracker_get_type_enum`). -/
structure BzTransactionEntryTracker where
  entry : Option BzEntry
  type_enum : Int

/-- Models C `strstr (haystack, needle) != NULL`: scan every suffix of the
haystack for the needle as a prefix. -/
def is_substring (needle : List Char) : List Char → Bool
  | [] => needle.isEmpty
  | c :: rest => needle.isPrefixOf (c :: rest) || is_substring needle rest

lemma is_substring_iff_infix (needle haystack : List Char) :
    is_substring needle haystack = true ↔ needle <:+: haystack := by
  induction haystack with
  | nil => simp [is_substring, List.isEmpty_iff, List.infix_nil]
  | cons c rest ih =>
      simp [is_substring, Bool.or_eq_true, List.isPrefixOf_iff_prefix, ih,
        List.infix_cons_iff]

/-- Models `filter_finished_ops_by_app_id` from `bz-transaction-view.c`: each
`NULL` check that the C code answers with `return TRUE` becomes a match arm,
and the final line models `strstr (op_name, entry_id) == NULL`. -/
def filter_finished_ops_by_app_id (item : Option BzTransactionTask)
    (user_data : Option BzTransactionEntryTracker) : Bool :=
  match item, user_data with
  | none, _ => true
  | _, none => true
  | some task, some tracker =>
      match task.error with
      | some _ => true
      | none =>
          match tracker.entry with
          | none => true
          | some entry =>
              match entry.id with
              | none => true
              | some entry_id =>
                  match task.op with
                  | none => true
                  | some op =>
                      match op.name with
                      | none => true
                      | some op_name => ! is_substring entry_id op_name

/-- Claim C2: with all fields non-null and no error on the task, the filter
returns `FALSE` exactly when the operation name contains the entry identifier
as a substring, and returns `TRUE` in every degenerate case (a null task,
tracker, entry, entry id, op or op name, or an error set on the task). -/
theorem filter_finished_ops_substring_match
    (task : BzTransactionTask) (tracker : BzTransactionEntryTracker)
    (entry : BzEntry) (entry_id : List Char)
    (op : BzBackendTransactionOpPayload) (op_name : List Char)
    (herr : task.error = none) (hentry : tracker.entry = some entry)
    (hid : entry.id = some entry_id) (hop : task.op = some op)
    (hname : op.name = some op_name) :
    (filter_finished_ops_by_app_id (some task) (some tracker) = false
        ↔ entry_id <:+: op_name)
  ∧ (∀ ud, filter_finished_ops_by_app_id none ud = true)
  ∧ (∀ it, filter_finished_ops_by_app_id it none = true)
  ∧ (∀ (t : BzTransactionTask) (tr : BzTransactionEntryTracker) (e : List Char),
        t.error = some e → filter_finished_ops_by_app_id (some t) (some tr) = true)
  ∧ (∀ (t : BzTransactionTask) (tr : BzTransactionEntryTracker),
        tr.entry = none → filter_finished_ops_by_app_id (some t) (some tr) = true)
  ∧ (∀ (t : BzTransactionTask) (tr : BzTransactionEntryTracker) (e : BzEntry),
        tr.entry = some e → e.id = none →
          filter_finished_ops_by_app_id (some t) (some tr) = true)
  ∧ (∀ (t : BzTransactionTask) (tr : BzTransactionEntryTracker),
        t.op = none → filter_finished_ops_by_app_id (some t) (some tr) = true)
  ∧ (∀ (t : BzTransactionTask) (tr : BzTransactionEntryTracker)
        (o : BzBackendTransactionOpPayload),
        t.op = some o → o.name = none →
          filter_finished_ops_by_app_id (some t) (some tr) = true) := by
  refine ⟨?_, ?_, ?_, ?_, ?_, ?_, ?_, ?_⟩
  · have hred : filter_finished_ops_by_app_id (some task) (some tracker)
        = ! is_substring entry_id op_name := by
      simp [filter_finished_ops_by_app_id, herr, hentry, hid, hop, hname]
    rw [hred, ← is_substring_iff_infix]
    cases is_substring entry_id op_name
    · simp
    · simp
  · intro ud
    cases ud
    · rfl
    · rfl
  · intro it
    cases it
    · rfl
    · rfl
  · intro t tr e he
    simp [filter_finished_ops_by_app_id, he]
  · intro t tr h
    cases he : t.error with
    | some e => simp [filter_finished_ops_by_app_id, he]
    | none => simp [filter_finished_ops_by_app_id, he, h]
  · intro t tr e h hid2
    cases he : t.error with
    | some x => simp [filter_finished_ops_by_app_id, he]
    | none => simp [filter_finished_ops_by_app_id, he, h, hid2]
  · intro t tr hop2
    cases he : t.error with
    | some x => simp [filter_finished_ops_by_app_id, he]
    | none =>
        cases hen : tr.entry with
        | none => simp [filter_finished_ops_by_app_id, he, hen]
        | some e =>
            cases hid2 : e.id with
            | none => simp [filter_finished_ops_by_app_id, he, hen, hid2]
            | some i => simp [filter_finished_ops_by_app_id, he, hen, hid2, hop2]
  · intro t tr o hop2 hname2
    cases he : t.error with
    | some x => simp [filter_finished_ops_by_app_id, he]
    | none =>
        cases hen : tr.entry with
        | none => simp [filter_finished_ops_by_app_id, he, hen]
        | some e =>
            cases hid2 : e.id with
            | none => simp [filter_finished_ops_by_app_id, he, hen, hid2]
            | some i => simp [filter_finished_ops_by_app_id, he, hen, hid2, hop2, hname2]

/-- A concrete entry whose id is the string "gnome". -/
def example_entry : BzEntry :=
  { id := some ("gnome".toList)
    icon_paintable := none
    is_flatpak := true
    is_of_kinds := fun _ => false }

/-- A concrete tracker holding `example_entry`. -/
def example_tracker : BzTransactionEntryTracker :=
  { entry := some example_entry, type_enum := 0 }

/-- A concrete errorless task whose operation is named "org.gnome.Maps". -/
def example_task : BzTransactionTask :=
  { error := none, op := some { name := some ("org.gnome.Maps".toList) } }

/-- Witness for claim C2: "gnome" occurs in "org.gnome.Maps", and the filter
indeed answers `FALSE` there. -/
theorem filter_finished_ops_substring_match_witness :
    example_task.error = none
  ∧ (filter_finished_ops_by_app_id (some example_task) (some example_tracker) = false
      ↔ "gnome".toList <:+: "org.gnome.Maps".toList) :=
  ⟨rfl, (filter_finished_ops_substring_match example_task example_tracker example_entry
    ("gnome".toList) { name := some ("org.gnome.Maps".toList) } ("org.gnome.Maps".toList)
    rfl rfl rfl rfl rfl).1⟩

/-- Models a `GListModel`: only `g_list_model_get_n_items` is consulted. -/
structure GListModel where
  n_items : ℕ

/-- Models a `GtkFilter` produced by `gtk_custom_filter_new`: the predicate
it will apply to list items. -/
structure GtkFilter where
  match_fun : Option BzTransactionTask → Bool

/-- Models a `BzWindow` handle. -/
structure BzWindow where
  id : ℕ
deriving DecidableEq

/-- Models a `BzEntryGroup`: only `bz_entry_group_get_icon_paintable` is
consulted by `get_main_icon`. -/
structure BzEntryGroup where
  icon_paintable : Option Icon

/-- Models `is_transaction_type`: `FALSE` on a null tracker, otherwise
compares the tracker's type enum with the given type. -/
def is_transaction_type (tracker : Option BzTransactionEntryTracker) (ty : Int) : Bool :=
  match tracker with
  | none => false
  | some tr => decide (tr.type_enum = ty)

/-- Models `is_entry_kind`: `FALSE` on a null tracker or null entry,
otherwise `bz_entry_is_of_kinds (entry, kind)`. -/
def is_entry_kind (tracker : Option BzTransactionEntryTracker) (kind : Int) : Bool :=
  match tracker with
  | none => false
  | some tr =>
      match tr.entry with
      | none => false
      | some entry => entry.is_of_kinds kind

/-- Models `list_has_items`: `FALSE` on a null model, otherwise whether the
model has more than zero items. -/
def list_has_items (model : Option GListModel) : Bool :=
  match model with
  | none => false
  | some m => decide (0 < m.n_items)

/-- Models `create_app_id_filter`: `NULL` on a null tracker, otherwise a
custom filter applying `filter_finished_ops_by_app_id` with the tracker as
user data. -/
def create_app_id_filter (tracker : Option BzTransactionEntryTracker) : Option GtkFilter :=
  match tracker with
  | none => none
  | some tr =>
      some { match_fun := fun item => filter_finished_ops_by_app_id item (some tr) }

/-- The result of `get_main_icon`: either a concrete icon paintable or the
themed generic icon `gtk_icon_theme_lookup_icon` returns for
"application-x-executable". -/
inductive MainIcon
  | paintable (icon : Icon)
  | generic_executable
deriving DecidableEq

/-- Models `get_main_icon`.  The list item argument only serves to locate the
ancestor `BzWindow`, passed here directly as `window`; the helper
`resolve_group_from_entry` (whose internals depend on window state outside
these sources) is abstracted as the `resolve_group` argument.  Every `goto
return_generic` of the C code becomes `MainIcon.generic_executable`. -/
def get_main_icon (window : Option BzWindow)
    (resolve_group : BzEntry → BzWindow → Option BzEntryGroup)
    (tracker : Option BzTransactionEntryTracker) : MainIcon :=
  match tracker with
  | none => MainIcon.generic_executable
  | some tr =>
      match tr.entry with
      | none => MainIcon.generic_executable
      | some entry =>
          match entry.icon_paintable with
          | some icon => MainIcon.paintable icon
          | none =>
              if entry.is_flatpak then
                match window with
                | none => MainIcon.generic_executable
                | some w =>
                    match resolve_group entry w with
                    | none => MainIcon.generic_executable
                    | some group =>
                        match group.icon_paintable with
                        | some icon => MainIcon.paintable icon
                        | none => MainIcon.generic_executable
              else
                MainIcon.generic_executable

/-- Claim C4: every template callback returns its safe default on null
input: `is_transaction_type`, `is_entry_kind` and `list_has_items` return
`FALSE` on a null tracker/entry/model; `create_app_id_filter` returns `NULL`
on a null tracker; and `get_main_icon` returns the generic
"application-x-executable" icon whenever the tracker, entry, resolved window
or resolved group is null and no entry icon paintable is available. -/
theorem transaction_view_defensive_defaults
    (ty kind : Int) (w : Option BzWindow)
    (resolve_group : BzEntry → BzWindow → Option BzEntryGroup)
    (tr : BzTransactionEntryTracker) (htr : tr.entry = none)
    (entry : BzEntry) (hicon : entry.icon_paintable = none)
    (hfp : entry.is_flatpak = true)
    (tr2 : BzTransactionEntryTracker) (htr2 : tr2.entry = some entry)
    (w2 : BzWindow) (hgrp : resolve_group entry w2 = none) :
    is_transaction_type none ty = false
  ∧ is_entry_kind none kind = false
  ∧ is_entry_kind (some tr) kind = false
  ∧ list_has_items none = false
  ∧ create_app_id_filter none = none
  ∧ get_main_icon w resolve_group none = MainIcon.generic_executable
  ∧ get_main_icon w resolve_group (some tr) = MainIcon.generic_executable
  ∧ get_main_icon none resolve_group (some tr2) = MainIcon.generic_executable
  ∧ get_main_icon (some w2) resolve_group (some tr2) = MainIcon.generic_executable := by
  refine ⟨rfl, rfl, ?_, rfl, rfl, rfl, ?_, ?_, ?_⟩
  · simp [is_entry_kind, htr]
  · simp [get_main_icon, htr]
  · simp [get_main_icon, htr2, hicon, hfp]
  · simp [get_main_icon, htr2, hicon, hfp, hgrp]

/-- A tracker with a null entry. -/
def example_null_entry_tracker : BzTransactionEntryTracker :=
  { entry := none, type_enum := 0 }

/-- Witness for claim C4 at concrete null inputs: `example_entry` has no icon
paintable and is a flatpak entry, and the constant-`none` group resolver
yields no group. -/
theorem transaction_view_defensive_defaults_witness :
    is_transaction_type none 0 = false
  ∧ is_entry_kind none 0 = false
  ∧ is_entry_kind (some example_null_entry_tracker) 0 = false
  ∧ list_has_items none = false
  ∧ create_app_id_filter none = none
  ∧ get_main_icon none (fun _ _ => none) none = MainIcon.generic_executable
  ∧ get_main_icon none (fun _ _ => none) (some example_null_entry_tracker)
      = MainIcon.generic_executable
  ∧ get_main_icon none (fun _ _ => none) (some example_tracker)
      = MainIcon.generic_executable
  ∧ get_main_icon (some { id := 0 }) (fun _ _ => none) (some example_tracker)
      = MainIcon.generic_executable :=
  transaction_view_defensive_defaults 0 0 none (fun _ _ => none)
    example_null_entry_tracker rfl example_entry rfl rfl example_tracker rfl
    { id := 0 } rfl

/-- Models C `g_str_has_prefix (str, pre)`. -/
def g_str_has_prefix (str pre : List Char) : Bool :=
  pre.isPrefixOf str

/-- Models `bz_spdx_is_valid` from `bz-spdx.c`, parametric in the external
AppStream lookup `as_get_license_url`: `FALSE` on a null id (the
`g_return_val_if_fail` guard), otherwise whether the lookup returns a
non-null URL. -/
def bz_spdx_is_valid (as_get_license_url : List Char → Option (List Char))
    (license_id : Option (List Char)) : Bool :=
  match license_id with
  | none => false
  | some lid => (as_get_license_url lid).isSome

/-- Models `bz_spdx_get_url`, parametric in the same external lookup. -/
def bz_spdx_get_url (as_get_license_url : List Char → Option (List Char))
    (license_id : Option (List Char)) : Option (List Char) :=
  match license_id with
  | none => none
  | some lid => as_get_license_url lid

/-- Models `bz_spdx_get_name`, parametric in the external AppStream
conversion `as_license_to_spdx_id`: `NULL` only on a null id; otherwise
"Proprietary" for ids prefixed with "LicenseRef-proprietary", the conversion
result when it succeeds, and a copy of the id itself when it fails. -/
def bz_spdx_get_name (as_license_to_spdx_id : List Char → Option (List Char))
    (license_id : Option (List Char)) : Option (List Char) :=
  match license_id with
  | none => none
  | some lid =>
      if g_str_has_prefix lid ("LicenseRef-proprietary".toList) then
        some ("Proprietary".toList)
      else
        match as_license_to_spdx_id lid with
        | none => some lid
        | some result => some result

/-- Claim C8: for every non-null license id `s`, `bz_spdx_get_name` returns
a non-null string: "Proprietary" when `s` starts with
"LicenseRef-proprietary", otherwise the SPDX conversion of `s` when it
succeeds, otherwise an unchanged copy of `s`. -/
theorem bz_spdx_get_name_total_with_fallback
    (conv : List Char → Option (List Char)) (s t : List Char) :
    (∃ r, bz_spdx_get_name conv (some s) = some r)
  ∧ ( g_str_has_prefix s ("LicenseRef-proprietary".toList) = true →
       bz_spdx_get_name conv (some s) = some ("Proprietary".toList))
  ∧ ( g_str_has_prefix s ("LicenseRef-proprietary".toList) = false →
       conv s = some t → bz_spdx_get_name conv (some s) = some t)
  ∧ ( g_str_has_prefix s ("LicenseRef-proprietary".toList) = false →
       conv s = none → bz_spdx_get_name conv (some s) = some s) := by
  refine ⟨?_, ?_, ?_, ?_⟩
  · unfold bz_spdx_get_name
    dsimp only
    by_cases h : g_str_has_prefix s ("LicenseRef-proprietary".toList) = true
    · rw [if_pos h]
      exact ⟨_, rfl⟩
    · rw [if_neg h]
      cases conv s
      · exact ⟨_, rfl⟩
      · exact ⟨_, rfl⟩
  · intro h
    unfold bz_spdx_get_name
    dsimp only
    rw [if_pos h]
  · intro h hc
    unfold bz_spdx_get_name
    dsimp only
    rw [if_neg (by rw [h]; exact Bool.false_ne_true), hc]
  · intro h hc
    unfold bz_spdx_get_name
    dsimp only
    rw [if_neg (by rw [h]; exact Bool.false_ne_true), hc]

/-- Witness for claim C8: "MIT" does not carry the proprietary prefix, and
with a conversion oracle that fails, the name falls back to "MIT" itself. -/
theorem bz_spdx_get_name_total_with_fallback_witness :
    g_str_has_prefix ("MIT".toList) ("LicenseRef-proprietary".toList) = false
  ∧ bz_spdx_get_name (fun _ => none) (some ("MIT".toList)) = some ("MIT".toList) :=
  ⟨by decide,
   (bz_spdx_get_name_total_with_fallback (fun _ => none) ("MIT".toList)
      ("MIT".toList)).2.2.2 (by decide) rfl⟩

/-- Claim C9: for every non-null license id `s`, `bz_spdx_is_valid` answers
`TRUE` exactly when `bz_spdx_get_url` returns a non-null URL, both consulting
the same underlying license-URL lookup. -/
theorem bz_spdx_is_valid_iff_url
    (as_get_license_url : List Char → Option (List Char)) (s : List Char) :
    bz_spdx_is_valid as_get_license_url (some s) = true
      ↔ (bz_spdx_get_url as_get_license_url (some s)).isSome = true := by
  unfold bz_spdx_is_valid bz_spdx_get_url
  exact Iff.rfl
